import Mathlib

/-!
Verification of the distributed-training notebooks (BERT/TensorFlow and
MaskRCNN/PyTorch) and the model-deployment notebook.

The notebooks assemble configuration records and hand them to an external
SDK.  Each code cell that builds such a record is embedded below as a pure
Lean function of the operator-supplied values; the external services
(model hosting, object storage, the blocking job-submission call) are not
part of this repository and are modelled from the spec where a claim
needs them.
-/

namespace Notebook

/-- Python scalar values as they occur in the hyperparameter mappings of the
notebooks: strings, integers, and decimal (float) literals, the latter kept
exact as rationals. -/
inductive PyVal where
  | str (s : String)
  | int (i : Int)
  | rat (q : ℚ)
  deriving DecidableEq, Repr

/-- A hyperparameter mapping: string keys to scalar values, in cell order. -/
abbrev HParams := List (String × PyVal)

/-- A distribution-strategy mapping, nested string-keyed dictionaries whose
leaves are booleans, as written in both estimator cells. -/
abbrev Distribution := List (String × List (String × List (String × Bool)))

/-- The keyword arguments both notebooks pass to the SDK estimator
constructor (`PyTorch(...)` in the MaskRCNN notebook, `TensorFlow(...)` in
the BERT notebook).  The job descriptor at notebook level is exactly this
argument record. -/
structure Estimator where
  entry_point : String
  role : String
  image_uri : String
  source_dir : String
  framework_version : String
  py_version : String
  instance_count : Nat
  instance_type : String
  sagemaker_session : String
  hyperparameters : HParams
  subnets : List String
  security_group_ids : List String
  debugger_hook_config : Bool
  distribution : Distribution
  deriving DecidableEq, Repr

/-- The `PyTorch(...)` estimator-construction cell of the MaskRCNN notebook:
fixed literal arguments are inlined, operator-supplied variables are the
parameters. -/
def PyTorchEstimatorCell (role docker_image : String) (instance_count : Nat)
    (instance_type sagemaker_session : String) (hyperparameters : HParams)
    (subnets security_group_ids : List String) : Estimator :=
  { entry_point := "train_pytorch_smdataparallel_maskrcnn.py"
    role := role
    image_uri := docker_image
    source_dir := "."
    instance_count := instance_count
    instance_type := instance_type
    framework_version := "1.8.1"
    py_version := "py36"
    sagemaker_session := sagemaker_session
    hyperparameters := hyperparameters
    subnets := subnets
    security_group_ids := security_group_ids
    debugger_hook_config := false
    distribution := [("smdistributed", [("dataparallel", [("enabled", true)])])] }

/-- The `TensorFlow(...)` estimator-construction cell of the BERT notebook. -/
def TensorFlowEstimatorCell (role docker_image : String) (instance_count : Nat)
    (instance_type sagemaker_session : String) (hyperparameters : HParams)
    (subnets security_group_ids : List String) : Estimator :=
  { entry_point := "albert/run_pretraining.py"
    role := role
    image_uri := docker_image
    source_dir := "deep-learning-models/models/nlp"
    framework_version := "2.4.1"
    py_version := "py37"
    instance_count := instance_count
    instance_type := instance_type
    sagemaker_session := sagemaker_session
    subnets := subnets
    hyperparameters := hyperparameters
    security_group_ids := security_group_ids
    debugger_hook_config := false
    distribution := [("smdistributed", [("dataparallel", [("enabled", true)])])] }

/-- The keyword arguments both notebooks pass to the SDK `FileSystemInput`
constructor; the input-channel binding to a filesystem at notebook level is
exactly this argument record. -/
structure FileSystemInput where
  file_system_id : String
  file_system_type : String
  directory_path : String
  file_system_access_mode : String
  deriving DecidableEq, Repr

/-- The FSx input-configuration cell (both notebooks): builds `train_fs`
with `file_system_type` fixed to "FSxLustre" and the id, directory path and
access mode supplied by the operator. -/
def fsxInputCell (file_system_id file_system_directory_path
    file_system_access_mode : String) : FileSystemInput :=
  { file_system_id := file_system_id
    file_system_type := "FSxLustre"
    directory_path := file_system_directory_path
    file_system_access_mode := file_system_access_mode }

/-- The last line of the FSx input-configuration cell (both notebooks):
`data_channels` maps the single channel name "train" to `train_fs`. -/
def dataChannelsCell (file_system_id file_system_directory_path
    file_system_access_mode : String) : List (String × FileSystemInput) :=
  [("train", fsxInputCell file_system_id file_system_directory_path
      file_system_access_mode)]

/-- The registry-address f-string shared by both notebooks:
docker_image is account + ".dkr.ecr." + region + ".amazonaws.com/" + image
+ ":" + tag. -/
def mkDockerImage (account region image tag : String) : String :=
  account ++ ".dkr.ecr." ++ region ++ ".amazonaws.com/" ++ image ++ ":" ++ tag

/-- The variables bound by the MaskRCNN configuration cell. -/
structure MaskrcnnConfig where
  instance_type : String
  instance_count : Nat
  docker_image : String
  region : String
  username : String
  subnets : List String
  security_group_ids : List String
  job_name : String
  file_system_id : String
  config_file : String
  deriving DecidableEq, Repr

/-- The MaskRCNN configuration cell, as the sequence of assignments written
in the notebook: `docker_image` is interpolated from the session account and
region, and on the following line the variable `region` is reassigned to the
placeholder "<REGION>".  `account` and `region` are the values produced by
the session-setup cell; `image` and `tag` were set by the operator in the
image cell; `subnet`, `security_group` and `fsx_id` are the strings the
operator writes over the placeholder literals of the cell. -/
def maskrcnnConfigCellEdited (account region image tag subnet security_group
    fsx_id : String) : MaskrcnnConfig :=
  let instance_type := "ml.p3dn.24xlarge"
  let instance_count := 2
  let docker_image := mkDockerImage account region image tag
  let region := "<REGION>"
  let username := "AWS"
  let subnets := [subnet]
  let security_group_ids := [security_group]
  let job_name := "pytorch-smdataparallel-mrcnn-fsx"
  let file_system_id := fsx_id
  let config_file := "e2e_mask_rcnn_R_50_FPN_1x_16GPU_4bs.yaml"
  { instance_type := instance_type
    instance_count := instance_count
    docker_image := docker_image
    region := region
    username := username
    subnets := subnets
    security_group_ids := security_group_ids
    job_name := job_name
    file_system_id := file_system_id
    config_file := config_file }

/-- The MaskRCNN configuration cell exactly as shipped, with the
placeholder text still in place. -/
def maskrcnnConfigCell (account region image tag : String) : MaskrcnnConfig :=
  maskrcnnConfigCellEdited account region image tag "<SUBNET_ID>"
    "<SECURITY_GROUP_ID>" "<FSX_ID>"

/-- The variables bound by the BERT configuration cell. -/
structure BertConfig where
  instance_type : String
  instance_count : Nat
  docker_image : String
  username : String
  subnets : List String
  security_group_ids : List String
  job_name : String
  file_system_id : String
  deriving DecidableEq, Repr

/-- The BERT configuration cell (no reassignment of `region` here);
`subnet`, `security_group` and `fsx_id` are the strings the operator writes
over the placeholder literals of the cell. -/
def bertConfigCellEdited (account region image tag subnet security_group
    fsx_id : String) : BertConfig :=
  { instance_type := "ml.p3dn.24xlarge"
    instance_count := 2
    docker_image := mkDockerImage account region image tag
    username := "AWS"
    subnets := [subnet]
    security_group_ids := [security_group]
    job_name := "smdataparallel-bert-tf2-fsx-2p3dn"
    file_system_id := fsx_id }

/-- The BERT configuration cell exactly as shipped, with the placeholder
text still in place. -/
def bertConfigCell (account region image tag : String) : BertConfig :=
  bertConfigCellEdited account region image tag "<SUBNET_ID>"
    "<SECURITY_GROUP_ID>" "<FSX_ID>"

/-- The MaskRCNN hyperparameter cell, a function of the `config_file`
variable set in the configuration cell. -/
def maskrcnnHyperparameters (config_file : String) : HParams :=
  [("config-file", .str config_file),
   ("skip-test", .str ""),
   ("seed", .int 987),
   ("dtype", .str "float16")]

/-- SM_DATA_ROOT from the BERT hyperparameter cell. -/
def SM_DATA_ROOT : String := "/opt/ml/input/data/train"

/-- Python str.join on a slash, used by the BERT hyperparameter cell. -/
def joinSlash (xs : List String) : String := String.intercalate "/" xs

/-- The BERT hyperparameter cell, a function of the `job_name` variable set
in the configuration cell; the decimal literals are kept exact. -/
def bertHyperparameters (job_name : String) : HParams :=
  [("train_dir", .str (joinSlash [SM_DATA_ROOT,
      "tfrecords/train/max_seq_len_128_max_predictions_per_seq_20_masked_lm_prob_15"])),
   ("val_dir", .str (joinSlash [SM_DATA_ROOT,
      "tfrecords/validation/max_seq_len_128_max_predictions_per_seq_20_masked_lm_prob_15"])),
   ("log_dir", .str (joinSlash [SM_DATA_ROOT, "checkpoints/bert/logs"])),
   ("checkpoint_dir", .str (joinSlash [SM_DATA_ROOT, "checkpoints/bert"])),
   ("load_from", .str "scratch"),
   ("model_type", .str "bert"),
   ("model_size", .str "large"),
   ("per_gpu_batch_size", .int 64),
   ("max_seq_length", .int 128),
   ("max_predictions_per_seq", .int 20),
   ("optimizer", .str "lamb"),
   ("learning_rate", .rat (5 / 1000)),
   ("end_learning_rate", .rat (3 / 10000)),
   ("hidden_dropout_prob", .rat (1 / 10)),
   ("attention_probs_dropout_prob", .rat (1 / 10)),
   ("gradient_accumulation_steps", .int 1),
   ("learning_rate_decay_power", .rat (1 / 2)),
   ("warmup_steps", .int 2812),
   ("total_steps", .int 2000),
   ("log_frequency", .int 10),
   ("run_name", .str job_name),
   ("squad_frequency", .int 0)]

/-- The build-and-push cell of both notebooks interpolates exactly the three
variables region, image and tag, in that order, into the shell line
invoking the external script; this is the script name together with its
positional-argument list. -/
def buildAndPushCommand (region image tag : String) : String × List String :=
  ("build_and_push.sh", [region, image, tag])

/-- The configuration-assembly steps of the MaskRCNN notebook run end to
end: configuration cell, hyperparameter cell, estimator cell, FSx input
cell.  The Python in these cells is assignments, literals and f-string
interpolation with no raising path, so the embedding has no error
constructor to reach; `Except` records that a local raise would be an
`error`. -/
def assembleMaskrcnnRun (account region image tag subnet security_group
    fsx_id role sagemaker_session directory_path access_mode : String) :
    Except String (Estimator × List (String × FileSystemInput)) :=
  let cfg := maskrcnnConfigCellEdited account region image tag subnet
    security_group fsx_id
  let est := PyTorchEstimatorCell role cfg.docker_image cfg.instance_count
    cfg.instance_type sagemaker_session
    (maskrcnnHyperparameters cfg.config_file) cfg.subnets
    cfg.security_group_ids
  let ch := dataChannelsCell cfg.file_system_id directory_path access_mode
  .ok (est, ch)

/-- The configuration-assembly steps of the BERT notebook run end to end,
as in `assembleMaskrcnnRun`. -/
def assembleBertRun (account region image tag subnet security_group fsx_id
    role sagemaker_session directory_path access_mode : String) :
    Except String (Estimator × List (String × FileSystemInput)) :=
  let cfg := bertConfigCellEdited account region image tag subnet
    security_group fsx_id
  let est := TensorFlowEstimatorCell role cfg.docker_image cfg.instance_count
    cfg.instance_type sagemaker_session (bertHyperparameters cfg.job_name)
    cfg.subnets cfg.security_group_ids
  let ch := dataChannelsCell cfg.file_system_id directory_path access_mode
  .ok (est, ch)

/-- Terminal state of a submitted training job, as reported back by the
managed platform. -/
inductive JobOutcome where
  | completed
  | failed
  deriving DecidableEq, Repr

/-- Modelled from the spec: `estimator.fit` is SDK code outside this
repository; per the spec it "submits the job descriptor plus input-channel
bindings to the managed training service and blocks until completion or
failure is reported back", so it is a total function from the descriptor
and the channel bindings to the terminal state, the terminal state itself
being chosen by the external platform (the `platform` parameter). -/
def fit (platform : Estimator → List (String × FileSystemInput) → JobOutcome)
    (estimator : Estimator) (inputs : List (String × FileSystemInput)) :
    JobOutcome :=
  platform estimator inputs

/-- The steps of the training pipeline, one per group of notebook cells, in
the grouping the spec names. -/
inductive PipelineStep where
  | sessionSetup
  | imageBuildPush
  | descriptorAssembly
  | channelBinding
  | jobSubmission
  deriving DecidableEq, Repr

/-- The cell order of both training notebooks: session cell, image name and
build-and-push cells, configuration and hyperparameter and estimator cells,
FSx input cell, fit cell. -/
def trainingPipeline : List PipelineStep :=
  [.sessionSetup, .imageBuildPush, .descriptorAssembly, .channelBinding,
   .jobSubmission]

/-- Notebook-level state threaded through the cells of a training
notebook. -/
structure RunState where
  sessionReady : Bool
  imagePushed : Bool
  estimator : Option Estimator
  channels : Option (List (String × FileSystemInput))
  jobOutcome : Option JobOutcome
  deriving DecidableEq, Repr

/-- The state before any cell has run. -/
def initialRunState : RunState :=
  { sessionReady := false
    imagePushed := false
    estimator := none
    channels := none
    jobOutcome := none }

/-- One pipeline step run to completion before the next begins: the
assembly steps bind the estimator and the channels, and job submission
calls `fit` on the previously bound estimator and channels. -/
def runStep (est : Estimator) (ch : List (String × FileSystemInput))
    (platform : Estimator → List (String × FileSystemInput) → JobOutcome)
    (s : RunState) : PipelineStep → RunState
  | .sessionSetup => { s with sessionReady := true }
  | .imageBuildPush => { s with imagePushed := true }
  | .descriptorAssembly => { s with estimator := some est }
  | .channelBinding => { s with channels := some ch }
  | .jobSubmission =>
      match s.estimator, s.channels with
      | some e, some c => { s with jobOutcome := some (fit platform e c) }
      | _, _ => s

/-- A whole training notebook: the pipeline steps folded over the initial
state in cell order, each running to completion before the next (the fold
is sequential; nothing runs concurrently). -/
def runTrainingNotebook (est : Estimator)
    (ch : List (String × FileSystemInput))
    (platform : Estimator → List (String × FileSystemInput) → JobOutcome) :
    RunState :=
  trainingPipeline.foldl (runStep est ch platform) initialRunState

/-- Contents of a stored object (the bytes of model.tar.gz). -/
abbrev S3Object := List Nat

/-- Modelled from the spec: the object store is an external collaborator;
its state maps a bucket name and a key to the object stored there, if
any. -/
def S3State := String → String → Option S3Object

/-- The object store with nothing in it. -/
def emptyS3 : S3State := fun _ _ => none

/-- The object store holding exactly `obj` in `bucket` under `key`. -/
def singletonS3 (bucket key : String) (obj : S3Object) : S3State :=
  fun b k => if b = bucket ∧ k = key then some obj else none

/-- The public bucket named in `copy_model_from_public_bucket`. -/
def public_bucket : String := "sagemaker-sample-files"

/-- The artifact key named in `copy_model_from_public_bucket`. -/
def model_key : String := "datasets/image/MNIST/model/model.tar.gz"

/-- `copy_model_from_public_bucket` from the deployment notebook: downloads
the artifact at `model_key` from `public_bucket` (staging it through a
local temporary file, which passes the bytes through unchanged), uploads it
into the default bucket of the session under the same key, and returns the
string "s3://" + default_bucket + "/" + key.  A missing public object makes
the download call raise, which the embedding returns as `error`. -/
def copy_model_from_public_bucket (s3 : S3State) (default_bucket : String) :
    Except String (S3State × String) :=
  match s3 public_bucket model_key with
  | none => .error "download_fileobj: the public object was not found"
  | some obj =>
      let s3' : S3State := fun b k =>
        if b = default_bucket ∧ k = model_key then some obj else s3 b k
      .ok (s3', "s3://" ++ default_bucket ++ "/" ++ model_key)

/-- The model-resolution cell of the deployment notebook: the %store magic
restores `model_data` when a previous run stored it (`stored = some v`,
used unchanged, no validation); referencing it otherwise raises NameError,
caught by the except branch, which calls `copy_model_from_public_bucket`. -/
def resolve_model_data (s3 : S3State) (default_bucket : String)
    (stored : Option String) : Except String (S3State × String) :=
  match stored with
  | some v => .ok (s3, v)
  | none => copy_model_from_public_bucket s3 default_bucket

/-- A non-empty S3 URI: the scheme "s3://" followed by a non-empty rest. -/
def IsS3Uri (s : String) : Prop :=
  ∃ rest, rest ≠ "" ∧ s = "s3://" ++ rest

/-- The keyword arguments the deployment notebook passes to the SDK
`TensorFlowModel` constructor. -/
structure TensorFlowModel where
  model_data : String
  role : String
  framework_version : String
  deriving DecidableEq, Repr

/-- The model-object cell: wraps the resolved `model_data` and the
execution role, with framework_version fixed to "2.3". -/
def modelCell (model_data role : String) : TensorFlowModel :=
  { model_data := model_data, role := role, framework_version := "2.3" }

/-- A predictor returned by deployment, bound to the endpoint it created. -/
structure Predictor where
  endpoint_name : String
  deriving DecidableEq, Repr

/-- Modelled from the spec: the model hosting API is an external
collaborator that "accepts a model descriptor and instance sizing; returns
an invocable prediction endpoint; supports explicit teardown".  Its state
is the set of active endpoints; `deploy` activates a fresh endpoint under a
platform-chosen name and returns the predictor bound to it. -/
def deploy (active : Finset String) (model : TensorFlowModel)
    (initial_instance_count : Nat) (instance_type endpoint_name : String) :
    Predictor × Finset String :=
  (⟨endpoint_name⟩, insert endpoint_name active)

/-- Modelled from the spec: `predictor.delete_endpoint` issues the teardown
request for the endpoint the predictor is bound to, removing it from the
active set. -/
def Predictor.delete_endpoint (p : Predictor) (active : Finset String) :
    Finset String :=
  active.erase p.endpoint_name

/-- C1: for every instance type, instance count and hyperparameter mapping
supplied by the operator, the assembled job descriptor (the estimator
configuration of either training notebook) contains exactly those values
unmodified: instance_type, instance_count and every hyperparameter
key/value pair appear verbatim, and no pair is altered or dropped. -/
theorem C1_estimator_config_passthrough :
    ∀ (instance_type : String) (instance_count : Nat) (hp : HParams)
      (role docker_image sess : String) (subnets sgs : List String),
      ((PyTorchEstimatorCell role docker_image instance_count instance_type
          sess hp subnets sgs).instance_type = instance_type
        ∧ (PyTorchEstimatorCell role docker_image instance_count
            instance_type sess hp subnets sgs).instance_count = instance_count
        ∧ (PyTorchEstimatorCell role docker_image instance_count
            instance_type sess hp subnets sgs).hyperparameters = hp
        ∧ ∀ kv : String × PyVal,
            kv ∈ (PyTorchEstimatorCell role docker_image instance_count
              instance_type sess hp subnets sgs).hyperparameters ↔ kv ∈ hp)
      ∧ ((TensorFlowEstimatorCell role docker_image instance_count
            instance_type sess hp subnets sgs).instance_type = instance_type
        ∧ (TensorFlowEstimatorCell role docker_image instance_count
            instance_type sess hp subnets sgs).instance_count = instance_count
        ∧ (TensorFlowEstimatorCell role docker_image instance_count
            instance_type sess hp subnets sgs).hyperparameters = hp
        ∧ ∀ kv : String × PyVal,
            kv ∈ (TensorFlowEstimatorCell role docker_image instance_count
              instance_type sess hp subnets sgs).hyperparameters ↔ kv ∈ hp) := by
  intro instance_type instance_count hp role docker_image sess subnets sgs
  exact ⟨⟨rfl, rfl, rfl, fun kv => Iff.rfl⟩,
         ⟨rfl, rfl, rfl, fun kv => Iff.rfl⟩⟩

/-- C2: for every file-system id, directory path and access mode supplied
by the operator, the assembled input-channel binding reproduces those three
values verbatim when read back. -/
theorem C2_filesystem_input_roundtrip :
    ∀ fsid path mode : String,
      (fsxInputCell fsid path mode).file_system_id = fsid
      ∧ (fsxInputCell fsid path mode).directory_path = path
      ∧ (fsxInputCell fsid path mode).file_system_access_mode = mode := by
  intro fsid path mode
  exact ⟨rfl, rfl, rfl⟩

/-- C3: every job descriptor assembled by either training notebook has its
distribution mapping equal to the single nested flag smdistributed ->
dataparallel -> enabled = true, and that mapping contains exactly this one
flag at every level and nothing else. -/
theorem C3_distribution_single_enabled_flag :
    ∀ (role docker_image : String) (instance_count : Nat)
      (instance_type sess : String) (hp : HParams) (subnets sgs : List String),
      ((PyTorchEstimatorCell role docker_image instance_count instance_type
          sess hp subnets sgs).distribution
        = [("smdistributed", [("dataparallel", [("enabled", true)])])]
      ∧ (TensorFlowEstimatorCell role docker_image instance_count
          instance_type sess hp subnets sgs).distribution
        = [("smdistributed", [("dataparallel", [("enabled", true)])])])
      ∧ ([("smdistributed", [("dataparallel", [("enabled", true)])])] :
          Distribution).length = 1
      ∧ ([("dataparallel", [("enabled", true)])] :
          List (String × List (String × Bool))).length = 1
      ∧ ([("enabled", true)] : List (String × Bool)).length = 1 := by
  intro role docker_image instance_count instance_type sess hp subnets sgs
  exact ⟨⟨rfl, rfl⟩, rfl, rfl, rfl⟩

/-- C5: the build/push cell passes exactly three positional arguments to
the external build_and_push script, in the order region, image name, tag,
each forwarded verbatim. -/
theorem C5_build_and_push_three_positional_args :
    ∀ region image tag : String,
      (buildAndPushCommand region image tag).1 = "build_and_push.sh"
      ∧ (buildAndPushCommand region image tag).2 = [region, image, tag]
      ∧ (buildAndPushCommand region image tag).2.length = 3 := by
  intro region image tag
  exact ⟨rfl, rfl, rfl⟩

/-- C7: for every training run, the input-channel bindings form a mapping
with exactly one channel, named "train", whose value is the filesystem
storage reference built from the supplied id, path and mode; no other
channel name is bound. -/
theorem C7_single_train_channel :
    ∀ fsid path mode : String,
      (dataChannelsCell fsid path mode).length = 1
      ∧ (dataChannelsCell fsid path mode).map Prod.fst = ["train"]
      ∧ ∀ name fs, (name, fs) ∈ dataChannelsCell fsid path mode →
          name = "train" ∧ fs = fsxInputCell fsid path mode := by
  intro fsid path mode
  refine ⟨rfl, rfl, ?_⟩
  intro name fs h
  simpa [dataChannelsCell] using h

/-- C4: deploying a model on an endpoint and then immediately tearing it
down leaves the set of active endpoints exactly as it was before the pair,
for the sizing the deployment cell passes (initial_instance_count = 1,
instance_type "ml.m4.xlarge") and any fresh endpoint name the platform
picks. -/
theorem C4_deploy_then_teardown_restores_active_set (active : Finset String)
    (model : TensorFlowModel) (ep : String) (h : ep ∉ active) :
    ((deploy active model 1 "ml.m4.xlarge" ep).1).delete_endpoint
      (deploy active model 1 "ml.m4.xlarge" ep).2 = active := by
  simp [deploy, Predictor.delete_endpoint, Finset.erase_insert h]

/-- Witness for C4 at a concrete hosting state, model and endpoint name. -/
theorem C4_witness :
    ("tf-mnist-endpoint" ∉ (∅ : Finset String))
    ∧ ((deploy ∅ (modelCell "s3://bucket/model.tar.gz" "SageMakerRole") 1
          "ml.m4.xlarge" "tf-mnist-endpoint").1).delete_endpoint
        (deploy ∅ (modelCell "s3://bucket/model.tar.gz" "SageMakerRole") 1
          "ml.m4.xlarge" "tf-mnist-endpoint").2 = ∅ :=
  ⟨Finset.not_mem_empty _,
   C4_deploy_then_teardown_restores_active_set ∅
     (modelCell "s3://bucket/model.tar.gz" "SageMakerRole")
     "tf-mnist-endpoint" (Finset.not_mem_empty _)⟩

/-- C6: the configuration-assembly steps of both training notebooks accept
arbitrary operator-supplied strings — region, account id, subnet id,
security-group id, image name, image tag, file-system id, directory path,
access mode, including placeholder text — and never raise locally: for
every choice of strings the assembly reaches the ok outcome and no error
outcome is reachable. -/
theorem C6_assembly_accepts_any_strings :
    ∀ account region image tag subnet sg fsid role sess path mode : String,
      (∃ out, assembleMaskrcnnRun account region image tag subnet sg fsid
        role sess path mode = .ok out)
      ∧ (∃ out, assembleBertRun account region image tag subnet sg fsid
        role sess path mode = .ok out)
      ∧ (¬ ∃ e, assembleMaskrcnnRun account region image tag subnet sg fsid
        role sess path mode = .error e)
      ∧ (¬ ∃ e, assembleBertRun account region image tag subnet sg fsid
        role sess path mode = .error e) := by
  intro account region image tag subnet sg fsid role sess path mode
  refine ⟨⟨_, rfl⟩, ⟨_, rfl⟩, ?_, ?_⟩
  · rintro ⟨e, h⟩
    simp [assembleMaskrcnnRun] at h
  · rintro ⟨e, h⟩
    simp [assembleBertRun] at h

/-- C8: job submission is the final pipeline step: in the cell order of the
training notebooks it comes strictly after session setup, image build/push,
descriptor assembly and channel binding, occurs exactly once, and in the
sequential (non-concurrent) run of the notebook it receives exactly the
previously assembled job descriptor and input-channel bindings and ends
with the terminal state `fit` reports back. -/
theorem C8_job_submission_is_final_and_synchronous :
    ∀ (est : Estimator) (ch : List (String × FileSystemInput))
      (platform : Estimator → List (String × FileSystemInput) → JobOutcome),
      trainingPipeline.getLast? = some PipelineStep.jobSubmission
      ∧ trainingPipeline.indexOf PipelineStep.sessionSetup
          < trainingPipeline.indexOf PipelineStep.jobSubmission
      ∧ trainingPipeline.indexOf PipelineStep.imageBuildPush
          < trainingPipeline.indexOf PipelineStep.jobSubmission
      ∧ trainingPipeline.indexOf PipelineStep.descriptorAssembly
          < trainingPipeline.indexOf PipelineStep.jobSubmission
      ∧ trainingPipeline.indexOf PipelineStep.channelBinding
          < trainingPipeline.indexOf PipelineStep.jobSubmission
      ∧ trainingPipeline.count PipelineStep.jobSubmission = 1
      ∧ (runTrainingNotebook est ch platform).sessionReady = true
      ∧ (runTrainingNotebook est ch platform).imagePushed = true
      ∧ (runTrainingNotebook est ch platform).estimator = some est
      ∧ (runTrainingNotebook est ch platform).channels = some ch
      ∧ (runTrainingNotebook est ch platform).jobOutcome
          = some (fit platform est ch) := by
  intro est ch platform
  exact ⟨rfl, by decide, by decide, by decide, by decide, by decide,
    rfl, rfl, rfl, rfl, rfl⟩

/-- C9 (counterexample): the claim says model_data is a non-empty S3 URI in
both branches, but the restored branch uses the stored value unchanged with
no validation, so restoring the empty string yields model_data = "", which
is not a non-empty S3 URI. -/
theorem C9_counterexample :
    resolve_model_data emptyS3 "my-default-bucket" (some "") =
      .ok (emptyS3, "")
    ∧ ¬ IsS3Uri "" := by
  refine ⟨rfl, ?_⟩
  rintro ⟨rest, hrest, h⟩
  have hd := congrArg String.data h
  simp [String.data_append] at hd

/-- C9 (amended): the model artifact location is resolved by exactly one of
two branches: a restored model_data value is used unchanged (with no
validation, so it is a non-empty S3 URI only if the stored value was one),
and otherwise the public artifact at model_key is copied from public_bucket
into the default bucket of the caller and model_data is set to the URI
"s3://" + default_bucket + "/" + key, which is always a non-empty S3
URI. -/
theorem C9_model_data_resolution :
    (∀ (s3 : S3State) (b v : String),
      resolve_model_data s3 b (some v) = .ok (s3, v))
    ∧ (∀ (s3 : S3State) (b : String) (obj : S3Object),
        s3 public_bucket model_key = some obj →
        ∃ s3' : S3State,
          resolve_model_data s3 b none =
            .ok (s3', "s3://" ++ b ++ "/" ++ model_key)
          ∧ s3' b model_key = some obj
          ∧ IsS3Uri ("s3://" ++ b ++ "/" ++ model_key)) := by
  constructor
  · intro s3 b v
    rfl
  · intro s3 b obj h
    refine ⟨fun bb k => if bb = b ∧ k = model_key then some obj else s3 bb k,
      ?_, ?_, ?_⟩
    · simp [resolve_model_data, copy_model_from_public_bucket, h]
    · simp
    · refine ⟨b ++ "/" ++ model_key, ?_, by simp [String.append_assoc]⟩
      intro hc
      have hd := congrArg String.data hc
      simp [String.data_append, model_key] at hd

/-- Witness for C9 (amended): resolving with no stored value against a
store holding the public artifact copies it and returns the URI. -/
theorem C9_witness :
    (singletonS3 public_bucket model_key [31, 139]) public_bucket model_key
      = some [31, 139]
    ∧ ∃ s3' : S3State,
        resolve_model_data (singletonS3 public_bucket model_key [31, 139])
          "my-default-bucket" none =
          .ok (s3', "s3://" ++ "my-default-bucket" ++ "/" ++ model_key)
        ∧ s3' "my-default-bucket" model_key = some [31, 139]
        ∧ IsS3Uri ("s3://" ++ "my-default-bucket" ++ "/" ++ model_key) :=
  ⟨by simp [singletonS3],
   C9_model_data_resolution.2 (singletonS3 public_bucket model_key [31, 139])
     "my-default-bucket" [31, 139] (by simp [singletonS3])⟩

/-- C10: in the MaskRCNN configuration cell the docker_image string is
interpolated from the session account and region before the variable
region is reassigned to the placeholder "<REGION>"; the reassignment does
not change the already-built docker_image, so the estimator cell receives
the registry address of the session region, never the placeholder. -/
theorem C10_docker_image_keeps_session_region
    (account region image tag : String) (h : region ≠ "<REGION>") :
    (maskrcnnConfigCell account region image tag).docker_image
      = mkDockerImage account region image tag
    ∧ (maskrcnnConfigCell account region image tag).region = "<REGION>"
    ∧ (maskrcnnConfigCell account region image tag).docker_image
      ≠ mkDockerImage account "<REGION>" image tag
    ∧ ∀ role sess : String,
        (PyTorchEstimatorCell role
          (maskrcnnConfigCell account region image tag).docker_image
          (maskrcnnConfigCell account region image tag).instance_count
          (maskrcnnConfigCell account region image tag).instance_type
          sess
          (maskrcnnHyperparameters
            (maskrcnnConfigCell account region image tag).config_file)
          (maskrcnnConfigCell account region image tag).subnets
          (maskrcnnConfigCell account region image tag).security_group_ids
          ).image_uri
        = mkDockerImage account region image tag := by
  refine ⟨rfl, rfl, ?_, fun role sess => rfl⟩
  intro heq
  apply h
  have heqm : mkDockerImage account region image tag
      = mkDockerImage account "<REGION>" image tag := heq
  have hd := congrArg String.data heqm
  simp only [mkDockerImage, String.data_append, List.append_assoc] at hd
  have h1 := List.append_cancel_left hd
  have h2 := List.append_cancel_left h1
  have h3 := List.append_cancel_right h2
  exact String.ext h3

/-- Witness for C10 at a concrete account, region, image and tag. -/
theorem C10_witness :
    ("us-west-2" ≠ "<REGION>")
    ∧ ((maskrcnnConfigCell "123456789012" "us-west-2"
          "mask-rcnn-smdataparallel-sagemaker" "pt1.8").docker_image
        = mkDockerImage "123456789012" "us-west-2"
            "mask-rcnn-smdataparallel-sagemaker" "pt1.8"
      ∧ (maskrcnnConfigCell "123456789012" "us-west-2"
          "mask-rcnn-smdataparallel-sagemaker" "pt1.8").region = "<REGION>"
      ∧ (maskrcnnConfigCell "123456789012" "us-west-2"
          "mask-rcnn-smdataparallel-sagemaker" "pt1.8").docker_image
        ≠ mkDockerImage "123456789012" "<REGION>"
            "mask-rcnn-smdataparallel-sagemaker" "pt1.8"
      ∧ ∀ role sess : String,
          (PyTorchEstimatorCell role
            (maskrcnnConfigCell "123456789012" "us-west-2"
              "mask-rcnn-smdataparallel-sagemaker" "pt1.8").docker_image
            (maskrcnnConfigCell "123456789012" "us-west-2"
              "mask-rcnn-smdataparallel-sagemaker" "pt1.8").instance_count
            (maskrcnnConfigCell "123456789012" "us-west-2"
              "mask-rcnn-smdataparallel-sagemaker" "pt1.8").instance_type
            sess
            (maskrcnnHyperparameters
              (maskrcnnConfigCell "123456789012" "us-west-2"
                "mask-rcnn-smdataparallel-sagemaker" "pt1.8").config_file)
            (maskrcnnConfigCell "123456789012" "us-west-2"
              "mask-rcnn-smdataparallel-sagemaker" "pt1.8").subnets
            (maskrcnnConfigCell "123456789012" "us-west-2"
              "mask-rcnn-smdataparallel-sagemaker" "pt1.8").security_group_ids
            ).image_uri
          = mkDockerImage "123456789012" "us-west-2"
              "mask-rcnn-smdataparallel-sagemaker" "pt1.8") :=
  ⟨by decide,
   C10_docker_image_keeps_session_region "123456789012" "us-west-2"
     "mask-rcnn-smdataparallel-sagemaker" "pt1.8" (by decide)⟩

end Notebook
